import Mathlib

/-!
Shallow embedding of `whatsapp-mcp-server/main.py` (FastAPI webhook relay):
the auth middleware, the outgoing-header builder, the webhook trigger
dispatcher, the ingest ring buffer and its read endpoint.

Python values that may be non-string (override header entries, JSON bodies)
are modelled by the inductive `PyVal`; Python `dict`s are modelled as
association lists with insertion-order semantics (`dictSet` replaces in
place, otherwise appends — exactly CPython's dict update behaviour).
-/

namespace WhatsappFastapi

/-- Python values as they appear in this program: JSON-ish data plus bytes. -/
inductive PyVal where
  | str (s : String)
  | int (n : Int)
  | bool (b : Bool)
  | none
  | bytes (b : List Nat)
  | list (xs : List PyVal)
  | dict (xs : List (PyVal × PyVal))
deriving Repr

/-- Python truthiness of an `Optional[str]`: `None` and `""` are falsy. -/
def pyFalsyOptStr : Option String → Bool
  | Option.none => true
  | Option.some s => s = ""

/-- Python `a or b` on two `Optional[str]` values. -/
def pyOrOptStr (a b : Option String) : Option String :=
  if pyFalsyOptStr a then b else a

/-- Whether an association-list dict has key `k` (Python `k in d`). -/
def hasKey (d : List (String × String)) (k : String) : Bool :=
  d.any (fun p => p.1 = k)

/-- CPython `d[k] = v` on an insertion-ordered dict: replace in place if the
key exists, else append at the end. -/
def dictSet (d : List (String × String)) (k v : String) : List (String × String) :=
  if hasKey d k then d.map (fun p => if p.1 = k then (k, v) else p)
  else d ++ [(k, v)]

/-- CPython `d.update(kvs)`: set each entry of `kvs` in order. -/
def dictUpdate (d : List (String × String)) (kvs : List (String × String)) :
    List (String × String) :=
  kvs.foldl (fun acc p => dictSet acc p.1 p.2) d

/-- The `isinstance(k, str) and isinstance(v, str)` filter of
`_build_outgoing_headers`: keep a pair only when key and value are strings. -/
def strPair : PyVal × PyVal → Option (String × String)
  | (PyVal.str k, PyVal.str v) => Option.some (k, v)
  | _ => Option.none

/-- The module-level configuration read from the environment at startup.
`DEFAULT_OUTGOING_HEADERS` is the already-parsed result of
`json.loads(OUTGOING_WEBHOOK_HEADERS)` (empty on failure / non-dict). -/
structure Env where
  WEBHOOK_API_KEY : Option String
  OUTGOING_WEBHOOK_URL : Option String
  DEFAULT_OUTGOING_HEADERS : List (String × String)
  OUTGOING_WEBHOOK_SECRET_HEADER : String
  OUTGOING_WEBHOOK_SECRET : Option String

/-- `_build_outgoing_headers` from `main.py` lines 236-245: defaults, then
the secret header when the secret is truthy, then string-typed caller
overrides (`if override_headers:` — an empty dict is falsy and skipped),
then `Content-Type` defaulted to `application/json` when that exact key is
absent. -/
def _build_outgoing_headers (env : Env) (override_headers : Option (List (PyVal × PyVal))) :
    List (String × String) :=
  let headers := env.DEFAULT_OUTGOING_HEADERS
  let headers :=
    if pyFalsyOptStr env.OUTGOING_WEBHOOK_SECRET then headers
    else dictSet headers env.OUTGOING_WEBHOOK_SECRET_HEADER
      (env.OUTGOING_WEBHOOK_SECRET.getD "")
  let headers :=
    match override_headers with
    | Option.none => headers
    | Option.some ov =>
        if ov.isEmpty then headers else dictUpdate headers (ov.filterMap strPair)
  if hasKey headers "Content-Type" then headers
  else headers ++ [("Content-Type", "application/json")]

/-- `EXEMPT_PATHS` from `main.py` line 54. -/
def EXEMPT_PATHS : List String := ["/docs", "/redoc", "/openapi.json", "/health"]

/-- Outcome of the HTTP middleware: either a short-circuit JSON response, or
the request is forwarded to its handler (`call_next`). -/
inductive MwOutcome where
  | response (status : Nat) (detail : String)
  | callNext
deriving Repr, DecidableEq

/-- `require_webhook_api_key` middleware, `main.py` lines 56-72.
`headerValue` is `request.headers.get("x-webhook-api-key")`. -/
def require_webhook_api_key (apiKey : Option String) (path : String)
    (headerValue : Option String) : MwOutcome :=
  if EXEMPT_PATHS.contains path then MwOutcome.callNext
  else if pyFalsyOptStr apiKey then
    MwOutcome.response 500 "Server misconfiguration: WEBHOOK_API_KEY not set"
  else
    match headerValue with
    | Option.none => MwOutcome.response 401 "Missing X-Webhook-Api-Key header"
    | Option.some v =>
        if Option.some v = apiKey then MwOutcome.callNext
        else MwOutcome.response 403 "Invalid webhook API key"

/-- `collections.deque(maxlen := n)` append: when the deque is at capacity,
the oldest element (list head) is evicted as the new one is appended. -/
def dequeAppend (maxlen : Nat) (d : List α) (x : α) : List α :=
  if d.length < maxlen then d ++ [x] else d.drop 1 ++ [x]

/-- `RECEIVED_EVENTS = deque(maxlen=200)` — the capacity constant. -/
def RECEIVED_EVENTS_maxlen : Nat := 200

/-- Python list slice `lst[-k:]` for a *nonnegative* `k` (the code clamps
with `max(0, ...)`): `lst[-0:]` is `lst[0:]`, the whole list; for `k ≥ 1`
it is the last `min k (length lst)` elements. -/
def pySliceLastNeg (l : List α) (k : Nat) : List α :=
  if k = 0 then l else l.drop (l.length - k)

/-- `list_ingested_events` (`GET /webhook/events`), `main.py` lines 326-329:
`list(RECEIVED_EVENTS)[-max(0, min(limit, len(RECEIVED_EVENTS))):]`.
The `limit` query parameter is a Python `int`, possibly negative. -/
def list_ingested_events (events : List α) (limit : Int) : List α :=
  pySliceLastNeg events (max 0 (min limit (events.length : Int))).toNat

/-- A `datetime.datetime` value as produced by `datetime.utcnow()`:
`1 ≤ year ≤ 9999`, the other fields in their usual ranges. -/
structure PyDateTime where
  year : Nat
  month : Nat
  day : Nat
  hour : Nat
  minute : Nat
  second : Nat
  microsecond : Nat

/-- The character for decimal digit `n % 10`. -/
def digitChar (n : Nat) : Char := Char.ofNat (48 + n % 10)

/-- Two-digit zero-padded decimal rendering (for values below 100). -/
def pad2 (n : Nat) : List Char := [digitChar (n / 10), digitChar n]

/-- Four-digit zero-padded decimal rendering (for values below 10000). -/
def pad4 (n : Nat) : List Char :=
  [digitChar (n / 1000), digitChar (n / 100), digitChar (n / 10), digitChar n]

/-- Six-digit zero-padded decimal rendering (for values below 1000000). -/
def pad6 (n : Nat) : List Char :=
  [digitChar (n / 100000), digitChar (n / 10000), digitChar (n / 1000),
   digitChar (n / 100), digitChar (n / 10), digitChar n]

/-- `datetime.isoformat()`: `YYYY-MM-DDTHH:MM:SS` with a `.ffffff` fraction
appended exactly when the microsecond field is nonzero. -/
def pyIsoformat (dt : PyDateTime) : String :=
  String.mk (pad4 dt.year ++ ['-'] ++ pad2 dt.month ++ ['-']
    ++ pad2 dt.day ++ ['T'] ++ pad2 dt.hour ++ [':']
    ++ pad2 dt.minute ++ [':'] ++ pad2 dt.second
    ++ (if dt.microsecond = 0 then [] else '.' :: pad6 dt.microsecond))

/-- The timestamp stored by `webhook_ingest`:
`datetime.utcnow().isoformat() + "Z"`. -/
def ingestTimestamp (dt : PyDateTime) : String := pyIsoformat dt ++ "Z"

/-- Syntactic validity checker for a UTC ISO-8601 timestamp of the shape
`YYYY-MM-DDTHH:MM:SSZ` or `YYYY-MM-DDTHH:MM:SS.ffffffZ`. -/
def isIso8601UtcZ (s : String) : Bool :=
  match s.data with
  | y1 :: y2 :: y3 :: y4 :: '-' :: m1 :: m2 :: '-' :: d1 :: d2 :: 'T' ::
      h1 :: h2 :: ':' :: mi1 :: mi2 :: ':' :: s1 :: s2 :: rest =>
      y1.isDigit && y2.isDigit && y3.isDigit && y4.isDigit && m1.isDigit &&
      m2.isDigit && d1.isDigit && d2.isDigit && h1.isDigit && h2.isDigit &&
      mi1.isDigit && mi2.isDigit && s1.isDigit && s2.isDigit &&
      (match rest with
       | ['Z'] => true
       | '.' :: f1 :: f2 :: f3 :: f4 :: f5 :: f6 :: ['Z'] =>
           f1.isDigit && f2.isDigit && f3.isDigit && f4.isDigit &&
           f5.isDigit && f6.isDigit
       | _ => false)
  | _ => false

/-- A record stored in `RECEIVED_EVENTS` by `webhook_ingest`. -/
structure IngestEvent where
  timestamp : String
  headers : List (String × String)
  body : PyVal

/-- The response model of `POST /webhook/ingest`. -/
structure IngestResponse where
  received : Bool
  stored_events : Nat
deriving Repr, DecidableEq

/-- `webhook_ingest` (`main.py` lines 308-323): parse the body as JSON,
falling back to `{"_raw": <bytes>}`; append a timestamped record to the
buffer; answer with the new buffer length. `parsed` is the result of
`request.json()` (`none` when parsing raised), `rawBody` is
`request.body()`. Returns the new buffer and the response. -/
def webhook_ingest (buf : List IngestEvent) (now : PyDateTime)
    (reqHeaders : List (String × String)) (parsed : Option PyVal)
    (rawBody : List Nat) : List IngestEvent × IngestResponse :=
  let payload :=
    match parsed with
    | Option.some p => p
    | Option.none => PyVal.dict [(PyVal.str "_raw", PyVal.bytes rawBody)]
  let buf2 := dequeAppend RECEIVED_EVENTS_maxlen buf
    { timestamp := ingestTimestamp now, headers := reqHeaders, body := payload }
  (buf2, { received := true, stored_events := buf2.length })

/-- The `method` field of `WebhookTriggerRequest`: `Literal["POST", "GET"]`. -/
inductive Method where
  | POST
  | GET
deriving Repr, DecidableEq

/-- The request model of `POST /webhook/trigger` (`main.py` lines 104-111).
Caller-supplied headers are kept as raw Python pairs so that the
non-string-dropping behaviour of `_build_outgoing_headers` is visible. -/
structure WebhookTriggerRequest where
  target_url : Option String
  method : Method
  payload : Option (List (PyVal × PyVal))
  headers : Option (List (PyVal × PyVal))
  query : Option (List (String × String))
  async_mode : Bool

/-- Outcome of the single `httpx` call attempted by the synchronous path:
either an HTTP response (status, body text) or a raised
`httpx.RequestError` (connection error, timeout) with its message. -/
inductive HttpOutcome where
  | response (status : Nat) (text : String)
  | requestError (msg : String)

/-- The arguments captured by `background_tasks.add_task(_send_webhook_sync, ...)`. -/
structure BackgroundCall where
  url : String
  method : Method
  headers : List (String × String)
  payload : Option (List (PyVal × PyVal))
  query : Option (List (String × String))

/-- What `webhook_trigger` hands back to the HTTP layer: either an
`HTTPException` (status, detail) or a JSON body. -/
inductive TriggerResult where
  | error (status : Nat) (detail : String)
  | scheduled
  | completed (status_code : Nat) (ok : Bool) (response_excerpt : String)
deriving Repr, DecidableEq

/-- Full observable outcome of one `webhook_trigger` call: the HTTP-level
result, the background task scheduled (if any), and how many `httpx`
requests the handler itself performed before returning. -/
structure TriggerOut where
  result : TriggerResult
  background : Option BackgroundCall
  callsMade : Nat

/-- `httpx.Response.is_success`: status code in the 2xx range. -/
def isSuccessStatus (status : Nat) : Bool := 200 ≤ status ∧ status < 300

/-- `webhook_trigger` (`main.py` lines 263-305). `outcome` is what the one
synchronous `httpx` request would observe; the asynchronous path never
consults it (the call happens after the response, in a background task). -/
def webhook_trigger (env : Env) (req : WebhookTriggerRequest)
    (outcome : HttpOutcome) : TriggerOut :=
  let url := pyOrOptStr req.target_url env.OUTGOING_WEBHOOK_URL
  if pyFalsyOptStr url then
    { result := TriggerResult.error 400
        "No target_url provided and OUTGOING_WEBHOOK_URL not configured",
      background := Option.none, callsMade := 0 }
  else
    let headers := _build_outgoing_headers env req.headers
    if req.async_mode then
      { result := TriggerResult.scheduled,
        background := Option.some
          { url := url.getD "", method := req.method, headers := headers,
            payload := req.payload, query := req.query },
        callsMade := 0 }
    else
      match outcome with
      | HttpOutcome.response status text =>
          { result := TriggerResult.completed status (isSuccessStatus status)
              (text.take 1000),
            background := Option.none, callsMade := 1 }
      | HttpOutcome.requestError msg =>
          { result := TriggerResult.error 502 ("Webhook request error: " ++ msg),
            background := Option.none, callsMade := 1 }

/-! ## Theorems -/

/-- C1: for every inbound request whose path is not in the exempt set
`{/docs, /redoc, /openapi.json, /health}`: with no configured secret the
middleware answers 500 regardless of the header; with a configured secret,
a missing `X-Webhook-Api-Key` header yields 401, a non-equal one 403, and
only the exactly-equal header reaches the handler. Exempt paths always
pass through. -/
theorem require_webhook_api_key_spec (apiKey : Option String) (path : String)
    (headerValue : Option String) :
    (path ∈ EXEMPT_PATHS →
      require_webhook_api_key apiKey path headerValue = MwOutcome.callNext) ∧
    (path ∉ EXEMPT_PATHS →
      (pyFalsyOptStr apiKey = true →
        require_webhook_api_key apiKey path headerValue =
          MwOutcome.response 500 "Server misconfiguration: WEBHOOK_API_KEY not set") ∧
      (∀ k, apiKey = Option.some k → k ≠ "" →
        (headerValue = Option.none →
          require_webhook_api_key apiKey path headerValue =
            MwOutcome.response 401 "Missing X-Webhook-Api-Key header") ∧
        (∀ v, headerValue = Option.some v → v ≠ k →
          require_webhook_api_key apiKey path headerValue =
            MwOutcome.response 403 "Invalid webhook API key") ∧
        (headerValue = Option.some k →
          require_webhook_api_key apiKey path headerValue = MwOutcome.callNext))) := by
  constructor
  · intro hmem
    simp [require_webhook_api_key, hmem]
  · intro hmem
    refine ⟨fun hfalsy => by simp [require_webhook_api_key, hmem, hfalsy], ?_⟩
    rintro k rfl hk
    have hfalsy : pyFalsyOptStr (Option.some k) = false := by
      simp [pyFalsyOptStr, hk]
    refine ⟨fun hnone => ?_, fun v hv hvk => ?_, fun hvk => ?_⟩
    · subst hnone; simp [require_webhook_api_key, hmem, hfalsy]
    · subst hv
      simp [require_webhook_api_key, hmem, hfalsy, hvk]
    · subst hvk
      simp [require_webhook_api_key, hmem, hfalsy]

/-- Witness for C1 at concrete inputs: with secret `"s"` configured,
a request to `/webhook/ingest` with the matching header passes through,
a wrong header is rejected 403, a missing header 401, and `/health` is
exempt; with no secret configured the answer is the 500 misconfiguration. -/
theorem require_webhook_api_key_spec_witness :
    require_webhook_api_key (Option.some "s") "/webhook/ingest" (Option.some "s") =
        MwOutcome.callNext ∧
    require_webhook_api_key (Option.some "s") "/webhook/ingest" (Option.some "t") =
        MwOutcome.response 403 "Invalid webhook API key" ∧
    require_webhook_api_key (Option.some "s") "/webhook/ingest" Option.none =
        MwOutcome.response 401 "Missing X-Webhook-Api-Key header" ∧
    require_webhook_api_key Option.none "/webhook/ingest" (Option.some "s") =
        MwOutcome.response 500 "Server misconfiguration: WEBHOOK_API_KEY not set" ∧
    require_webhook_api_key Option.none "/health" Option.none = MwOutcome.callNext := by
  have hmem : "/webhook/ingest" ∉ EXEMPT_PATHS := by decide
  refine ⟨?_, ?_, ?_, ?_, ?_⟩
  · exact (((require_webhook_api_key_spec (Option.some "s") "/webhook/ingest"
      (Option.some "s")).2 hmem).2 "s" rfl (by decide)).2.2 rfl
  · exact (((require_webhook_api_key_spec (Option.some "s") "/webhook/ingest"
      (Option.some "t")).2 hmem).2 "s" rfl (by decide)).2.1 "t" rfl (by decide)
  · exact (((require_webhook_api_key_spec (Option.some "s") "/webhook/ingest"
      Option.none).2 hmem).2 "s" rfl (by decide)).1 rfl
  · exact ((require_webhook_api_key_spec Option.none "/webhook/ingest"
      (Option.some "s")).2 hmem).1 (by decide)
  · exact (require_webhook_api_key_spec Option.none "/health" Option.none).1 (by decide)

/-- Dropping the non-string pairs before `filterMap strPair` changes nothing. -/
theorem filterMap_strPair_filter (ov : List (PyVal × PyVal)) :
    (ov.filter (fun p => (strPair p).isSome)).filterMap strPair =
      ov.filterMap strPair := by
  induction ov with
  | nil => rfl
  | cons p t ih =>
      cases hp : strPair p <;>
        simp [List.filter_cons, List.filterMap_cons, hp, ih]

/-- `hasKey` distributes over append. -/
theorem hasKey_append (d e : List (String × String)) (k : String) :
    hasKey (d ++ e) k = (hasKey d k || hasKey e k) := by
  simp [hasKey, List.any_append]

/-- `dictSet d k v` always leaves key `k` present. -/
theorem hasKey_dictSet_self (d : List (String × String)) (k v : String) :
    hasKey (dictSet d k v) k = true := by
  unfold dictSet
  by_cases h : hasKey d k = true
  · simp only [h, if_true]
    unfold hasKey at h ⊢
    rw [List.any_map]
    rcases List.any_eq_true.mp h with ⟨p, hp, hpk⟩
    refine List.any_eq_true.mpr ⟨p, hp, ?_⟩
    simp only [decide_eq_true_eq] at hpk
    simp [Function.comp, hpk]
  · simp only [h]
    simp [hasKey_append, hasKey]

/-- C2: the outgoing header set is defaults, overwritten by the secret
header, overwritten by the string-typed caller overrides, with
`Content-Type: application/json` added when absent.  Concretely, for
defaults `{"A":"1"}`, secret header `X-Webhook-Api-Key` with secret `"s"`
and overrides `{"A":"2","B":"3"}` the result is (as a mapping) exactly
`{"A":"2","B":"3","X-Webhook-Api-Key":"s","Content-Type":"application/json"}`;
and non-string override entries are dropped silently: filtering them away
first gives the same result. -/
theorem build_outgoing_headers_merge_law :
    (_build_outgoing_headers
        { WEBHOOK_API_KEY := Option.some "s", OUTGOING_WEBHOOK_URL := Option.none,
          DEFAULT_OUTGOING_HEADERS := [("A", "1")],
          OUTGOING_WEBHOOK_SECRET_HEADER := "X-Webhook-Api-Key",
          OUTGOING_WEBHOOK_SECRET := Option.some "s" }
        (Option.some [(PyVal.str "A", PyVal.str "2"),
          (PyVal.str "B", PyVal.str "3")])).Perm
      [("A", "2"), ("B", "3"), ("X-Webhook-Api-Key", "s"),
       ("Content-Type", "application/json")] ∧
    ∀ (env : Env) (ov : List (PyVal × PyVal)),
      _build_outgoing_headers env (Option.some ov) =
        _build_outgoing_headers env
          (Option.some (ov.filter (fun p => (strPair p).isSome))) := by
  constructor
  · decide
  · intro env ov
    simp only [_build_outgoing_headers, filterMap_strPair_filter]
    by_cases h1 : ov.isEmpty
    · rw [List.isEmpty_iff] at h1
      subst h1
      rfl
    · by_cases h2 : (ov.filter (fun p => (strPair p).isSome)).isEmpty
      · have hfm : ov.filterMap strPair = [] := by
          rw [← filterMap_strPair_filter]
          rw [List.isEmpty_iff] at h2
          rw [h2]
          rfl
        simp [h1, h2, hfm, dictUpdate]
      · simp [h1, h2]

/-- The final `Content-Type` defaulting step always leaves the exact key
`Content-Type` present. -/
theorem hasKey_ensure_ct (h3 : List (String × String)) :
    hasKey (if hasKey h3 "Content-Type" then h3
      else h3 ++ [("Content-Type", "application/json")]) "Content-Type" = true := by
  by_cases h : hasKey h3 "Content-Type" = true
  · simp [h]
  · simp only [Bool.not_eq_true] at h
    rw [if_neg (by simp [h])]
    simp [hasKey_append, h, hasKey]

/-- A key present before the `Content-Type` defaulting step stays present. -/
theorem hasKey_ite_append (U e : List (String × String)) (k : String)
    (c : Prop) [Decidable c] (h : hasKey U k = true) :
    hasKey (if c then U else U ++ e) k = true := by
  by_cases hc : c <;> simp [hc, hasKey_append, h]

/-- C9: the `"Content-Type" not in headers` check is case-sensitive on the
exact key: every result of `_build_outgoing_headers` contains the exact key
`Content-Type`; supplying a lower-cased `content-type` override does not
suppress it, so the lower-cased key is present as well (alongside
`Content-Type`, by the first part applied to that override). -/
theorem content_type_key_case_sensitive (env : Env) (v : String) :
    (∀ ov, hasKey (_build_outgoing_headers env ov) "Content-Type" = true) ∧
    hasKey (_build_outgoing_headers env
        (Option.some [(PyVal.str "content-type", PyVal.str v)]))
      "content-type" = true := by
  constructor
  · intro ov
    simp only [_build_outgoing_headers]
    exact hasKey_ensure_ct _
  · simp only [_build_outgoing_headers, List.isEmpty_cons, List.filterMap_cons,
      strPair, Bool.false_eq_true, if_false]
    refine hasKey_ite_append _ _ _ _ ?_
    simp only [List.filterMap_nil, dictUpdate, List.foldl_cons, List.foldl_nil]
    exact hasKey_dictSet_self _ _ _

/-- Folding `dequeAppend` from the empty deque keeps exactly the last
`m` appended elements: the buffer equals the appended sequence with its
oldest overflow dropped. -/
theorem foldl_dequeAppend_eq_drop {α : Type} (m : Nat) (hm : 0 < m)
    (evs : List α) :
    evs.foldl (dequeAppend m) [] = evs.drop (evs.length - m) := by
  induction evs using List.reverseRecOn with
  | nil => simp
  | append_singleton l x ih =>
      rw [List.foldl_append]
      simp only [List.foldl_cons, List.foldl_nil]
      rw [ih]
      unfold dequeAppend
      by_cases hl : l.length < m
      · have h0 : l.length - m = 0 := by omega
        have h1 : (l ++ [x]).length - m = 0 := by
          simp only [List.length_append, List.length_singleton]
          omega
        rw [h0, h1, List.drop_zero, List.drop_zero, if_pos hl]
      · have hlen : (l.drop (l.length - m)).length = m := by
          rw [List.length_drop]
          omega
        rw [if_neg (by omega)]
        rw [List.drop_drop]
        have h2 : (l ++ [x]).length - m = l.length + 1 - m := by
          simp only [List.length_append, List.length_singleton]
        rw [h2, List.drop_append_of_le_length (by omega)]
        have h3 : l.length - m + 1 = l.length + 1 - m := by omega
        rw [h3]

/-- C3: the ingest buffer models `deque(maxlen=200)`: (a) any single append
preserves the length bound 200; (b) after any sequence of appends from
empty the buffer is exactly the appended sequence minus its oldest
overflow (so relative order is unchanged and at most 200 events are
stored); (c) appending 201 distinct events leaves exactly 200 stored, the
oldest absent, and the rest in their original relative order. -/
theorem received_events_fifo_eviction :
    (∀ {α : Type} (d : List α) (x : α), d.length ≤ RECEIVED_EVENTS_maxlen →
      (dequeAppend RECEIVED_EVENTS_maxlen d x).length ≤ RECEIVED_EVENTS_maxlen) ∧
    (∀ {α : Type} (evs : List α),
      evs.foldl (dequeAppend RECEIVED_EVENTS_maxlen) [] =
        evs.drop (evs.length - RECEIVED_EVENTS_maxlen)) ∧
    (∀ {α : Type} (evs : List α), evs.length = 201 → evs.Nodup →
      evs.foldl (dequeAppend RECEIVED_EVENTS_maxlen) [] = evs.drop 1 ∧
      (evs.foldl (dequeAppend RECEIVED_EVENTS_maxlen) []).length = 200 ∧
      ∀ e, evs.head? = Option.some e →
        e ∉ evs.foldl (dequeAppend RECEIVED_EVENTS_maxlen) []) := by
  refine ⟨?_, ?_, ?_⟩
  · intro α d x hd
    unfold dequeAppend
    by_cases h : d.length < RECEIVED_EVENTS_maxlen
    · rw [if_pos h]
      simp only [List.length_append, List.length_singleton]
      omega
    · rw [if_neg h]
      simp only [List.length_append, List.length_singleton, List.length_drop]
      unfold RECEIVED_EVENTS_maxlen at *
      omega
  · intro α evs
    exact foldl_dequeAppend_eq_drop RECEIVED_EVENTS_maxlen (by decide) evs
  · intro α evs hlen hnd
    have hfold := foldl_dequeAppend_eq_drop RECEIVED_EVENTS_maxlen (by decide) evs
    have h201 : evs.length - RECEIVED_EVENTS_maxlen = 1 := by
      rw [hlen]
      rfl
    rw [h201] at hfold
    refine ⟨hfold, ?_, ?_⟩
    · rw [hfold, List.length_drop, hlen]
    · intro e he
      rw [hfold]
      rcases evs with _ | ⟨a, t⟩
      · simp at he
      · simp only [List.head?_cons, Option.some.injEq] at he
        subst he
        simp only [List.drop_succ_cons, List.drop_zero]
        exact (List.nodup_cons.mp hnd).1

/-- C4 counterexample: with one stored event and `limit = 0` the clamped
count is `0`, yet `GET /webhook/events` returns the whole buffer — Python
`lst[-0:]` is `lst[0:]` — instead of zero events as the claim requires. -/
theorem list_ingested_events_limit_zero_counterexample :
    list_ingested_events [(0 : Nat)] 0 = [0] ∧
    (max 0 (min (0 : Int) (([(0 : Nat)] : List Nat).length : Int))).toNat = 0 := by
  constructor <;> decide

/-- C4 (amended): for `limit ≥ 1` the read returns exactly
`min limit (length)` events, the most recently inserted ones, in insertion
order (a suffix of the buffer); but for `limit ≤ 0` the clamp degenerates
and the *entire* buffer is returned rather than zero events. -/
theorem list_ingested_events_spec {α : Type} (events : List α) (limit : Int) :
    (1 ≤ limit →
      list_ingested_events events limit =
        events.drop (events.length - limit.toNat) ∧
      (list_ingested_events events limit).length =
        min limit.toNat events.length) ∧
    (limit ≤ 0 → list_ingested_events events limit = events) ∧
    list_ingested_events events limit <:+ events := by
  refine ⟨?_, ?_, ?_⟩
  · intro h1
    unfold list_ingested_events pySliceLastNeg
    have hk : (max 0 (min limit (events.length : Int))).toNat =
        min limit.toNat events.length := by omega
    rw [hk]
    by_cases h0 : min limit.toNat events.length = 0
    · have he : events.length = 0 := by omega
      rw [h0, if_pos rfl]
      rw [List.length_eq_zero] at he
      subst he
      simp
    · rw [if_neg h0]
      constructor
      · have harg : events.length - min limit.toNat events.length =
            events.length - limit.toNat := by omega
        rw [harg]
      · rw [List.length_drop]
        omega
  · intro h0
    unfold list_ingested_events pySliceLastNeg
    have hk : (max 0 (min limit (events.length : Int))).toNat = 0 := by omega
    rw [hk, if_pos rfl]
  · unfold list_ingested_events pySliceLastNeg
    by_cases h : (max 0 (min limit (events.length : Int))).toNat = 0
    · rw [if_pos h]
    · rw [if_neg h]
      exact List.drop_suffix _ _

/-- Witness for C4 (amended), instantiating the claim's own example: with
10 stored events and `limit = 5`, exactly the 5 most recently inserted
come back, in insertion order. -/
theorem list_ingested_events_spec_witness :
    list_ingested_events (List.range 10) 5 = [5, 6, 7, 8, 9] := by
  have h := (list_ingested_events_spec (List.range 10) 5).1 (by decide)
  rw [h.1]
  rfl

/-- C5: in asynchronous mode with a resolvable target, `webhook_trigger`
answers `{scheduled: true}` having made no HTTP call of its own, and its
entire observable outcome is independent of what the downstream call would
return — the fire-and-forget law. -/
theorem async_trigger_fire_and_forget (env : Env) (req : WebhookTriggerRequest)
    (o1 o2 : HttpOutcome)
    (hasync : req.async_mode = true)
    (hurl : pyFalsyOptStr (pyOrOptStr req.target_url env.OUTGOING_WEBHOOK_URL) = false) :
    (webhook_trigger env req o1).result = TriggerResult.scheduled ∧
    (webhook_trigger env req o1).callsMade = 0 ∧
    webhook_trigger env req o1 = webhook_trigger env req o2 := by
  refine ⟨?_, ?_, ?_⟩ <;> simp [webhook_trigger, hurl, hasync]

/-- Witness for C5: async trigger against an unreachable target (its would-be
outcome is a connection error) still reports `scheduled`. -/
theorem async_trigger_fire_and_forget_witness :
    (webhook_trigger
      { WEBHOOK_API_KEY := Option.none, OUTGOING_WEBHOOK_URL := Option.none,
        DEFAULT_OUTGOING_HEADERS := [],
        OUTGOING_WEBHOOK_SECRET_HEADER := "X-Webhook-Api-Key",
        OUTGOING_WEBHOOK_SECRET := Option.none }
      { target_url := Option.some "http://example.invalid/hook",
        method := Method.POST, payload := Option.none, headers := Option.none,
        query := Option.none, async_mode := true }
      (HttpOutcome.requestError "connection refused")).result =
      TriggerResult.scheduled :=
  (async_trigger_fire_and_forget _ _ _ (HttpOutcome.response 200 "ok")
    rfl (by decide)).1

/-- C6: in synchronous mode with a resolvable target, a completed HTTP call
yields `scheduled = false` with the upstream status, a success flag that is
true exactly for 2xx, and at most the first 1000 characters of the body;
a network-level failure raises the 502 error carrying the underlying
message; in both cases exactly one HTTP call is made (no retry). -/
theorem sync_trigger_spec (env : Env) (req : WebhookTriggerRequest)
    (hsync : req.async_mode = false)
    (hurl : pyFalsyOptStr (pyOrOptStr req.target_url env.OUTGOING_WEBHOOK_URL) = false) :
    (∀ status text,
      (webhook_trigger env req (HttpOutcome.response status text)).result =
        TriggerResult.completed status (isSuccessStatus status) (text.take 1000) ∧
      (isSuccessStatus status = true ↔ 200 ≤ status ∧ status < 300) ∧
      (text.take 1000).length ≤ 1000 ∧
      (webhook_trigger env req (HttpOutcome.response status text)).callsMade = 1) ∧
    (∀ msg,
      (webhook_trigger env req (HttpOutcome.requestError msg)).result =
        TriggerResult.error 502 ("Webhook request error: " ++ msg) ∧
      (webhook_trigger env req (HttpOutcome.requestError msg)).callsMade = 1) := by
  constructor
  · intro status text
    refine ⟨?_, ?_, ?_, ?_⟩
    · simp only [webhook_trigger, hurl, hsync, Bool.false_eq_true, if_false]
    · simp [isSuccessStatus]
    · have hlen : ∀ s : String, s.length = s.data.length := fun s => rfl
      rw [hlen, String.data_take]
      exact List.length_take_le _ _
    · simp only [webhook_trigger, hurl, hsync, Bool.false_eq_true, if_false]
  · intro msg
    constructor <;>
      simp only [webhook_trigger, hurl, hsync, Bool.false_eq_true, if_false]

/-- Witness for C6: a synchronous call that gets a 404 with body
`"not found"` reports `completed 404 false "not found"`, and one that hits
a timeout raises the 502 with the message embedded. -/
theorem sync_trigger_spec_witness :
    (webhook_trigger
      { WEBHOOK_API_KEY := Option.none, OUTGOING_WEBHOOK_URL := Option.some "http://h/x",
        DEFAULT_OUTGOING_HEADERS := [],
        OUTGOING_WEBHOOK_SECRET_HEADER := "X-Webhook-Api-Key",
        OUTGOING_WEBHOOK_SECRET := Option.none }
      { target_url := Option.none, method := Method.GET, payload := Option.none,
        headers := Option.none, query := Option.none, async_mode := false }
      (HttpOutcome.response 404 "not found")).result =
        TriggerResult.completed 404 (isSuccessStatus 404) ("not found".take 1000) ∧
    (webhook_trigger
      { WEBHOOK_API_KEY := Option.none, OUTGOING_WEBHOOK_URL := Option.some "http://h/x",
        DEFAULT_OUTGOING_HEADERS := [],
        OUTGOING_WEBHOOK_SECRET_HEADER := "X-Webhook-Api-Key",
        OUTGOING_WEBHOOK_SECRET := Option.none }
      { target_url := Option.none, method := Method.GET, payload := Option.none,
        headers := Option.none, query := Option.none, async_mode := false }
      (HttpOutcome.requestError "timed out")).result =
        TriggerResult.error 502 ("Webhook request error: " ++ "timed out") :=
  ⟨((sync_trigger_spec _ _ rfl (by decide)).1 404 "not found").1,
   ((sync_trigger_spec _ _ rfl (by decide)).2 "timed out").1⟩

/-- C7: target resolution for `POST /webhook/trigger`: a truthy
caller-supplied `target_url` is dispatched to; an omitted one falls back to
the configured `OUTGOING_WEBHOOK_URL`; when the resolved target is missing
the handler fails with the 400 missing-target error and dispatches nothing
in either mode (no background task, no HTTP call). -/
theorem trigger_target_resolution (env : Env) (req : WebhookTriggerRequest)
    (outcome : HttpOutcome) :
    (∀ u, req.target_url = Option.some u → u ≠ "" → req.async_mode = true →
      (webhook_trigger env req outcome).background =
        Option.some
          { url := u, method := req.method,
            headers := _build_outgoing_headers env req.headers,
            payload := req.payload, query := req.query }) ∧
    (∀ d, req.target_url = Option.none → env.OUTGOING_WEBHOOK_URL = Option.some d →
      d ≠ "" → req.async_mode = true →
      (webhook_trigger env req outcome).background =
        Option.some
          { url := d, method := req.method,
            headers := _build_outgoing_headers env req.headers,
            payload := req.payload, query := req.query }) ∧
    (pyFalsyOptStr (pyOrOptStr req.target_url env.OUTGOING_WEBHOOK_URL) = true →
      (webhook_trigger env req outcome).result =
        TriggerResult.error 400
          "No target_url provided and OUTGOING_WEBHOOK_URL not configured" ∧
      (webhook_trigger env req outcome).background = Option.none ∧
      (webhook_trigger env req outcome).callsMade = 0) := by
  refine ⟨?_, ?_, ?_⟩
  · intro u hu hne hasync
    have hor : pyOrOptStr req.target_url env.OUTGOING_WEBHOOK_URL = Option.some u := by
      simp [pyOrOptStr, hu, pyFalsyOptStr, hne]
    simp [webhook_trigger, hor, pyFalsyOptStr, hne, hasync]
  · intro d hnone hd hne hasync
    have hor : pyOrOptStr req.target_url env.OUTGOING_WEBHOOK_URL = Option.some d := by
      simp [pyOrOptStr, hnone, pyFalsyOptStr, hd]
    simp [webhook_trigger, hor, pyFalsyOptStr, hne, hasync]
  · intro hurl
    refine ⟨?_, ?_, ?_⟩ <;> simp [webhook_trigger, hurl]

/-- Witness for C7: with no caller target and no configured default the
result is the 400 missing-target error with nothing dispatched; with a
caller target `http://a/b`, the async background task goes to `http://a/b`. -/
theorem trigger_target_resolution_witness :
    (webhook_trigger
      { WEBHOOK_API_KEY := Option.none, OUTGOING_WEBHOOK_URL := Option.none,
        DEFAULT_OUTGOING_HEADERS := [],
        OUTGOING_WEBHOOK_SECRET_HEADER := "X-Webhook-Api-Key",
        OUTGOING_WEBHOOK_SECRET := Option.none }
      { target_url := Option.none, method := Method.POST, payload := Option.none,
        headers := Option.none, query := Option.none, async_mode := true }
      (HttpOutcome.response 200 "ok")).result =
        TriggerResult.error 400
          "No target_url provided and OUTGOING_WEBHOOK_URL not configured" ∧
    (webhook_trigger
      { WEBHOOK_API_KEY := Option.none, OUTGOING_WEBHOOK_URL := Option.none,
        DEFAULT_OUTGOING_HEADERS := [],
        OUTGOING_WEBHOOK_SECRET_HEADER := "X-Webhook-Api-Key",
        OUTGOING_WEBHOOK_SECRET := Option.none }
      { target_url := Option.some "http://a/b", method := Method.POST,
        payload := Option.none, headers := Option.none, query := Option.none,
        async_mode := true }
      (HttpOutcome.response 200 "ok")).background =
        Option.some
          { url := "http://a/b", method := Method.POST,
            headers := [("Content-Type", "application/json")],
            payload := Option.none, query := Option.none } :=
  ⟨((trigger_target_resolution _ _ _).2.2 (by decide)).1,
   (trigger_target_resolution _ _ _).1 "http://a/b" rfl (by decide) rfl⟩

/-- C10: an empty-string `target_url` is falsy, so it behaves exactly like
an omitted one: the configured default is used, and with no default the
call fails with the 400 missing-target error instead of dispatching to an
empty URL. -/
theorem empty_target_url_truthy_fallback (env : Env)
    (req : WebhookTriggerRequest) (outcome : HttpOutcome) :
    webhook_trigger env { req with target_url := Option.some "" } outcome =
      webhook_trigger env { req with target_url := Option.none } outcome ∧
    (pyFalsyOptStr env.OUTGOING_WEBHOOK_URL = true →
      (webhook_trigger env { req with target_url := Option.some "" } outcome).result =
        TriggerResult.error 400
          "No target_url provided and OUTGOING_WEBHOOK_URL not configured") := by
  have h : pyOrOptStr (Option.some "") env.OUTGOING_WEBHOOK_URL =
      pyOrOptStr Option.none env.OUTGOING_WEBHOOK_URL := by
    simp [pyOrOptStr, pyFalsyOptStr]
  constructor
  · simp only [webhook_trigger, h]
  · intro hdef
    have hor : pyOrOptStr (Option.some "") env.OUTGOING_WEBHOOK_URL =
        env.OUTGOING_WEBHOOK_URL := by
      simp [pyOrOptStr, pyFalsyOptStr]
    have hurl : pyFalsyOptStr (pyOrOptStr (Option.some "") env.OUTGOING_WEBHOOK_URL) =
        true := by
      rw [hor]
      exact hdef
    simp [webhook_trigger, hurl]

/-- Witness for C10: with no configured default and `target_url = ""`,
the trigger answers the 400 missing-target error. -/
theorem empty_target_url_truthy_fallback_witness :
    (webhook_trigger
      { WEBHOOK_API_KEY := Option.none, OUTGOING_WEBHOOK_URL := Option.none,
        DEFAULT_OUTGOING_HEADERS := [],
        OUTGOING_WEBHOOK_SECRET_HEADER := "X-Webhook-Api-Key",
        OUTGOING_WEBHOOK_SECRET := Option.none }
      { target_url := Option.some "", method := Method.POST,
        payload := Option.none, headers := Option.none, query := Option.none,
        async_mode := false }
      (HttpOutcome.response 200 "ok")).result =
      TriggerResult.error 400
        "No target_url provided and OUTGOING_WEBHOOK_URL not configured" := by
  have h := (empty_target_url_truthy_fallback
    { WEBHOOK_API_KEY := Option.none, OUTGOING_WEBHOOK_URL := Option.none,
      DEFAULT_OUTGOING_HEADERS := [],
      OUTGOING_WEBHOOK_SECRET_HEADER := "X-Webhook-Api-Key",
      OUTGOING_WEBHOOK_SECRET := Option.none }
    { target_url := Option.some "xxx", method := Method.POST,
      payload := Option.none, headers := Option.none, query := Option.none,
      async_mode := false }
    (HttpOutcome.response 200 "ok")).2 rfl
  exact h

/-- Every character produced by `digitChar` is a decimal digit. -/
theorem digitChar_isDigit (n : Nat) : (digitChar n).isDigit = true := by
  unfold digitChar
  have h : n % 10 < 10 := Nat.mod_lt _ (by norm_num)
  set m := n % 10 with hm
  interval_cases m <;> decide

/-- The stored timestamp always passes the UTC ISO-8601 shape check. -/
theorem ingestTimestamp_valid (dt : PyDateTime) :
    isIso8601UtcZ (ingestTimestamp dt) = true := by
  have hdata : (ingestTimestamp dt).data =
      pad4 dt.year ++ ['-'] ++ pad2 dt.month ++ ['-']
        ++ pad2 dt.day ++ ['T'] ++ pad2 dt.hour ++ [':']
        ++ pad2 dt.minute ++ [':'] ++ pad2 dt.second
        ++ (if dt.microsecond = 0 then [] else '.' :: pad6 dt.microsecond)
        ++ ['Z'] := by
    unfold ingestTimestamp pyIsoformat
    rw [String.data_append]
  unfold isIso8601UtcZ
  rw [hdata]
  by_cases hms : dt.microsecond = 0
  · simp [hms, pad4, pad2, List.append_assoc, digitChar_isDigit]
  · simp [hms, pad4, pad2, pad6, List.append_assoc, digitChar_isDigit]

/-- A deque append always puts the new element at the tail. -/
theorem dequeAppend_concat (m : Nat) (d : List α) (x : α) :
    ∃ t, dequeAppend m d x = t ++ [x] := by
  unfold dequeAppend
  by_cases h : d.length < m
  · exact ⟨d, if_pos h⟩
  · exact ⟨d.drop 1, if_neg h⟩

/-- Reading with `limit = 1` from a buffer that ends in `x` returns `[x]`. -/
theorem list_ingested_events_one (l : List α) (x : α) :
    list_ingested_events (l ++ [x]) 1 = [x] := by
  unfold list_ingested_events pySliceLastNeg
  have hk : (max 0 (min 1 (((l ++ [x]).length : Nat) : Int))).toNat = 1 := by
    simp only [List.length_append, List.length_singleton]
    omega
  rw [hk, if_neg one_ne_zero]
  have harg : (l ++ [x]).length - 1 = l.length := by
    simp only [List.length_append, List.length_singleton]
    omega
  rw [harg, List.drop_append_of_le_length (Nat.le_refl _), List.drop_length,
    List.nil_append]

/-- C8: ingest/read round trip: after `POST /webhook/ingest` with a body
that parses to `B`, `GET /webhook/events?limit=1` returns exactly one
event, whose `body` is `B` and whose `timestamp` is the UTC ISO-8601 stamp
of the ingest instant; an unparseable body is stored as raw bytes under the
`_raw` sentinel instead; the ingest response is
`{received: true, stored_events: <new buffer length>}`. -/
theorem webhook_ingest_roundtrip (buf : List IngestEvent) (now : PyDateTime)
    (reqHeaders : List (String × String)) (parsed : Option PyVal)
    (rawBody : List Nat) :
    (∀ B, parsed = Option.some B →
      list_ingested_events (webhook_ingest buf now reqHeaders parsed rawBody).1 1 =
        [{ timestamp := ingestTimestamp now, headers := reqHeaders, body := B }]) ∧
    (parsed = Option.none →
      list_ingested_events (webhook_ingest buf now reqHeaders parsed rawBody).1 1 =
        [{ timestamp := ingestTimestamp now, headers := reqHeaders,
           body := PyVal.dict [(PyVal.str "_raw", PyVal.bytes rawBody)] }]) ∧
    isIso8601UtcZ (ingestTimestamp now) = true ∧
    (webhook_ingest buf now reqHeaders parsed rawBody).2 =
      { received := true,
        stored_events := (webhook_ingest buf now reqHeaders parsed rawBody).1.length } := by
  refine ⟨?_, ?_, ingestTimestamp_valid now, rfl⟩
  · rintro B rfl
    show list_ingested_events (dequeAppend RECEIVED_EVENTS_maxlen buf
      { timestamp := ingestTimestamp now, headers := reqHeaders, body := B }) 1 = _
    rcases dequeAppend_concat RECEIVED_EVENTS_maxlen buf
      { timestamp := ingestTimestamp now, headers := reqHeaders, body := B } with ⟨t, ht⟩
    rw [ht, list_ingested_events_one]
  · rintro rfl
    show list_ingested_events (dequeAppend RECEIVED_EVENTS_maxlen buf
      { timestamp := ingestTimestamp now, headers := reqHeaders,
        body := PyVal.dict [(PyVal.str "_raw", PyVal.bytes rawBody)] }) 1 = _
    rcases dequeAppend_concat RECEIVED_EVENTS_maxlen buf
      { timestamp := ingestTimestamp now, headers := reqHeaders,
        body := PyVal.dict [(PyVal.str "_raw", PyVal.bytes rawBody)] } with ⟨t, ht⟩
    rw [ht, list_ingested_events_one]

/-- Witness for C8, instantiating the spec's round-trip example: ingesting
a body parsed as `{"event": "msg"}` into an empty buffer and reading back
with `limit = 1` yields that one event, with a shape-valid UTC ISO-8601
timestamp, and the ingest response reports one stored event. -/
theorem webhook_ingest_roundtrip_witness :
    list_ingested_events (webhook_ingest [] ⟨2024, 5, 6, 7, 8, 9, 0⟩ []
        (Option.some (PyVal.dict [(PyVal.str "event", PyVal.str "msg")])) []).1 1 =
      [{ timestamp := ingestTimestamp ⟨2024, 5, 6, 7, 8, 9, 0⟩, headers := [],
         body := PyVal.dict [(PyVal.str "event", PyVal.str "msg")] }] ∧
    isIso8601UtcZ (ingestTimestamp ⟨2024, 5, 6, 7, 8, 9, 0⟩) = true :=
  ⟨(webhook_ingest_roundtrip [] ⟨2024, 5, 6, 7, 8, 9, 0⟩ []
      (Option.some (PyVal.dict [(PyVal.str "event", PyVal.str "msg")])) []).1
      (PyVal.dict [(PyVal.str "event", PyVal.str "msg")]) rfl,
   (webhook_ingest_roundtrip [] ⟨2024, 5, 6, 7, 8, 9, 0⟩ []
      (Option.some (PyVal.dict [(PyVal.str "event", PyVal.str "msg")])) []).2.2.1⟩

/-- Witness for C3: appending the 201 distinct events `0, …, 200` to the
empty buffer leaves exactly the 200 events `1, …, 200` in order — the
oldest event `0` has been evicted. -/
theorem received_events_fifo_eviction_witness :
    (List.range 201).foldl (dequeAppend RECEIVED_EVENTS_maxlen) [] =
      (List.range 201).drop 1 ∧
    ((List.range 201).foldl (dequeAppend RECEIVED_EVENTS_maxlen) []).length = 200 ∧
    (0 : Nat) ∉ (List.range 201).foldl (dequeAppend RECEIVED_EVENTS_maxlen) [] := by
  have h := received_events_fifo_eviction.2.2 (List.range 201)
    (by simp) (List.nodup_range 201)
  exact ⟨h.1, h.2.1, h.2.2 0 (by decide)⟩

end WhatsappFastapi
